import Mathlib

/-
  Verification of the iterative spline parameterization routine
  (moveit_core/trajectory_processing/src/iterative_spline_parameterization.cpp).

  The C++ source is shallowly embedded over exact rationals (ℚ):
  - double arrays become functions ℕ → ℚ (in-place mutation becomes
    explicit state passing / `Function.update`);
  - the unbounded convergence loops take an explicit fuel argument and
    return `Option`, `none` meaning the fuel ran out;
  - the external trajectory object (a collaborator of the core) becomes a
    Lean structure holding the waypoint list and per-waypoint durations.
-/

set_option maxRecDepth 100000

namespace TrajectoryProcessing

/-! ## SplineFitter: fit_cubic_spline (source lines 356-391)

The C routine runs the Thomas (tridiagonal) algorithm in place, storing the
forward-elimination coefficients c and d in the output arrays x1 and x2.
Here the coefficient recurrences become recursive functions:
`splineC i` is c[i] and `splineD i` is d[i] after the forward sweep. -/

/-- Forward-sweep coefficient c[i] of the tridiagonal algorithm:
c[0] = 0.5 (line 365); c[i] = (1 - a) / (2 - a*c[i-1]) with
a = dt[i-1]/(dt[i-1]+dt[i]) (lines 369-372). -/
def splineC (dt : ℕ → ℚ) : ℕ → ℚ
  | 0 => 1 / 2
  | i + 1 =>
    (1 - dt i / (dt i + dt (i + 1))) /
      (2 - dt i / (dt i + dt (i + 1)) * splineC dt i)

/-- Forward-sweep right-hand side d[i]:
d[0] = 3*((x[1]-x[0])/dt[0] - x1_i)/dt[0] (line 366);
d[i] = (6*((x[i+1]-x[i])/dt[i] - (x[i]-x[i-1])/dt[i-1])/(dt[i-1]+dt[i])
        - a*d[i-1]) / (2 - a*c[i-1]) (lines 373-374). -/
def splineD (dt x : ℕ → ℚ) (x1i : ℚ) : ℕ → ℚ
  | 0 => 3 * ((x 1 - x 0) / dt 0 - x1i) / dt 0
  | i + 1 =>
    (6 * ((x (i + 2) - x (i + 1)) / dt (i + 1) - (x (i + 1) - x i) / dt i) /
        (dt i + dt (i + 1)) -
      dt i / (dt i + dt (i + 1)) * splineD dt x x1i i) /
      (2 - dt i / (dt i + dt (i + 1)) * splineC dt i)

/-- Last right-hand side d[n-1] = (6*(x1_f - (x[n-1]-x[n-2])/dt[n-2])
- dt[n-2]*d[n-2]) / (dt[n-2]*(2 - c[n-2])) (lines 376-378). -/
def splineDlast (n : ℕ) (dt x : ℕ → ℚ) (x1i x1f : ℚ) : ℚ :=
  (6 * (x1f - (x (n - 1) - x (n - 2)) / dt (n - 2)) -
      dt (n - 2) * splineD dt x x1i (n - 2)) /
    (dt (n - 2) * (2 - splineC dt (n - 2)))

/-- Back-substitution sweep (lines 382-384), indexed from the top:
`splineX2top k` is the final x2[n-1-k].  k = 0 gives x2[n-1] = d[n-1];
the step is x2[j] = d[j] - c[j]*x2[j+1] with j = n-2-k. -/
def splineX2top (n : ℕ) (dt x : ℕ → ℚ) (x1i x1f : ℚ) : ℕ → ℚ
  | 0 => splineDlast n dt x x1i x1f
  | k + 1 =>
    splineD dt x x1i (n - 2 - k) -
      splineC dt (n - 2 - k) * splineX2top n dt x x1i x1f k

/-- fit_cubic_spline (lines 356-391).  Inputs: point count n, durations dt,
positions x, and x1 whose entries 0 and n-1 carry the clamped boundary
first derivatives (the C routine reads them at line 359 and restores them
at lines 387 and 390; the write of x1[n-1] comes last, which matters only
when n = 1).  Output: the final (x1, x2) arrays; the C in-out x2 argument
is write-only, so it is not a Lean input.  x2[i] is the back-substitution
value indexed from the top, x1 interior entries follow line 389. -/
def fit_cubic_spline (n : ℕ) (dt x x1 : ℕ → ℚ) : (ℕ → ℚ) × (ℕ → ℚ) :=
  (fun i =>
      if i = n - 1 then x1 (n - 1)
      else if i = 0 then x1 0
      else (x (i + 1) - x i) / dt i -
        (2 * splineX2top n dt x (x1 0) (x1 (n - 1)) (n - 1 - i) +
          splineX2top n dt x (x1 0) (x1 (n - 1)) (n - 1 - (i + 1))) * dt i / 6,
    fun i => splineX2top n dt x (x1 0) (x1 (n - 1)) (n - 1 - i))

/-! ## TimeInitializer: init_times (source lines 430-439) -/

/-- init_times: raise each dt[i] (i < n-1) to at least
|(x[i+1]-x[i])/max_velocity| + 0.001 (lines 433-438). -/
def init_times (n : ℕ) (dt x : ℕ → ℚ) (max_velocity : ℚ) : ℕ → ℚ :=
  fun i =>
    if i < n - 1 then
      if dt i < |(x (i + 1) - x i) / max_velocity| + 1 / 1000 then
        |(x (i + 1) - x i) / max_velocity| + 1 / 1000
      else dt i
    else dt i

/-! ## BoundChecker/TimeStretcher: fit_spline_and_adjust_times
(source lines 460-509) -/

/-- Result of one fit_spline_and_adjust_times call: the (possibly
stretched) durations, the refit x1 and x2 arrays, and the C int return
(1 = some stretch happened) as a Bool. -/
structure FitResult where
  dt : ℕ → ℚ
  x1 : ℕ → ℚ
  x2 : ℕ → ℚ
  ret : Bool

/-- fit_spline_and_adjust_times (lines 460-509): refit the spline, then
run the velocity check over all segments (lines 469-478); only if no
velocity stretch happened (`if (ret == 0)`, line 480) run the
acceleration check (lines 482-491); only if still no stretch (line 495)
run the jerk check (lines 497-505).  Each loop iteration checks its own
segment against the fitted x1/x2 (the jerk check also reads the as yet
unstretched dt[i]) and multiplies dt[i] by tfactor on violation, so each
category is a pointwise update of dt. -/
def fit_spline_and_adjust_times (n : ℕ) (dt x x1 : ℕ → ℚ)
    (vlimit alimit jlimit tfactor : ℚ) : FitResult :=
  let f := fit_cubic_spline n dt x x1
  let anyVel := (List.range (n - 1)).any fun i =>
    decide (vlimit < |f.1 i| ∨ vlimit < |f.1 (i + 1)|)
  if anyVel then
    ⟨fun i =>
        if i < n - 1 ∧ (vlimit < |f.1 i| ∨ vlimit < |f.1 (i + 1)|) then
          dt i * tfactor
        else dt i,
      f.1, f.2, true⟩
  else
    let anyAcc := (List.range (n - 1)).any fun i =>
      decide (alimit < |f.2 i| ∨ alimit < |f.2 (i + 1)|)
    if anyAcc then
      ⟨fun i =>
          if i < n - 1 ∧ (alimit < |f.2 i| ∨ alimit < |f.2 (i + 1)|) then
            dt i * tfactor
          else dt i,
        f.1, f.2, true⟩
    else
      let anyJrk := (List.range (n - 1)).any fun i =>
        decide (jlimit < |(f.2 (i + 1) - f.2 i) / dt i|)
      if anyJrk then
        ⟨fun i =>
            if i < n - 1 ∧ jlimit < |(f.2 (i + 1) - f.2 i) / dt i| then
              dt i * tfactor
            else dt i,
          f.1, f.2, true⟩
      else ⟨dt, f.1, f.2, false⟩

/-! ## EndpointCurvatureSolver: adjust_two_positions
(source lines 402-423) -/

/-- Positions after the first probe of adjust_two_positions
(lines 406-407): x[1] := x[0], then x[n-2] := x[n-3] (reading the array
already holding the new x[1]). -/
def adjustProbe1 (n : ℕ) (x : ℕ → ℚ) : ℕ → ℚ :=
  Function.update (Function.update x 1 (x 0)) (n - 2)
    (Function.update x 1 (x 0) (n - 3))

/-- Positions after the second probe (lines 412-413): starting from the
first-probe array, x[1] := x[2], then x[n-2] := x[n-1]. -/
def adjustProbe2 (n : ℕ) (x : ℕ → ℚ) : ℕ → ℚ :=
  Function.update (Function.update (adjustProbe1 n x) 1 (adjustProbe1 n x 2))
    (n - 2)
    (Function.update (adjustProbe1 n x) 1 (adjustProbe1 n x 2) (n - 1))

/-- adjust_two_positions (lines 402-423): probe-fit twice, recording the
endpoint curvatures a0 = x2[0], b0 = x2[n-1] of the first fit and
a2, b2 of the second, then secant-solve x[1] (if a2 != a0, line 419-420)
and x[n-2] (if b2 != b0, lines 421-422, reading the possibly already
updated x[1] through x[n-3]).  The returned x1/x2 arrays are those left
by the second fit. -/
def adjust_two_positions (n : ℕ) (dt x x1 : ℕ → ℚ) (x2_i x2_f : ℚ) :
    (ℕ → ℚ) × (ℕ → ℚ) × (ℕ → ℚ) :=
  let f1 := fit_cubic_spline n dt (adjustProbe1 n x) x1
  let a0 := f1.2 0
  let b0 := f1.2 (n - 1)
  let xd := adjustProbe2 n x
  let f2 := fit_cubic_spline n dt xd f1.1
  let a2 := f2.2 0
  let b2 := f2.2 (n - 1)
  let xe :=
    if a2 ≠ a0 then
      Function.update xd 1 (xd 0 + (xd 2 - xd 0) / (a2 - a0) * (x2_i - a0))
    else xd
  let xf :=
    if b2 ≠ b0 then
      Function.update xe (n - 2)
        (xe (n - 3) + (xe (n - 1) - xe (n - 3)) / (b2 - b0) * (x2_f - b0))
    else xe
  (xf, f2.1, f2.2)

/-! ## Data model of the external collaborators

The core consumes the trajectory through the accessor interface described
in spec section 6 (waypoint count, per-joint position/velocity/acceleration
accessors, per-joint bound records, waypoint insertion, durations). -/

/-- robot_model::VariableBounds, the per-variable bound record
(read at source lines 196, 207-213). -/
structure VariableBounds where
  max_velocity_ : ℚ
  min_velocity_ : ℚ
  velocity_bounded_ : Bool
  max_acceleration_ : ℚ
  min_acceleration_ : ℚ
  acceleration_bounded_ : Bool

/-- One waypoint (robot_state::RobotState): per-variable position,
velocity and acceleration, indexed by variable index. -/
structure RobotState where
  positions : ℕ → ℚ
  velocities : ℕ → ℚ
  accelerations : ℕ → ℚ

instance : Inhabited RobotState :=
  ⟨⟨fun _ => 0, fun _ => 0, fun _ => 0⟩⟩

/-- robot_model::JointModelGroup: the variable count, the variable index
list (getVariableIndexList) and, composed with the name-based bound
lookup rmodel.getVariableBounds(vars[j]) of line 196, the per-joint
bound record as a function of the joint number j. -/
structure JointModelGroup where
  varCount : ℕ
  idx : ℕ → ℕ
  bounds : ℕ → VariableBounds

/-- robot_trajectory::RobotTrajectory: the group the plan was computed
for (may be missing, line 116), the waypoint list, and the parallel list
of durations-from-previous. -/
structure RobotTrajectory where
  group : Option JointModelGroup
  waypoints : List RobotState
  durations : List ℚ

/-- Modelled from the spec: `RobotTrajectory::unwind` (angle unwrapping
of revolute joints, called at source line 148) is an external
collaborator whose code is not part of this source tree; spec section 1
only says it normalizes wrapped angles.  `computeTimeStamps` therefore
takes the unwind operation as an abstract trajectory transformer of this
type; theorems quantify over it. -/
def UnwindModel : Type := RobotTrajectory → RobotTrajectory

/-- The per-joint working series (source struct SingleJointTrajectory,
lines 85-97). -/
structure SingleJointTrajectory where
  positions : ℕ → ℚ
  velocities : ℕ → ℚ
  accelerations : ℕ → ℚ
  initial_velocity : ℚ
  final_velocity : ℚ
  initial_acceleration : ℚ
  final_acceleration : ℚ
  max_velocity : ℚ
  max_acceleration : ℚ
  max_jerk : ℚ

instance : Inhabited SingleJointTrajectory :=
  ⟨⟨fun _ => 0, fun _ => 0, fun _ => 0, 0, 0, 0, 0, 0, 0, 0⟩⟩

/-- The IterativeSplineParameterization object: stored stretch factor and
add-points flag. -/
structure IterativeSplineParameterization where
  max_time_change_per_it_ : ℚ
  add_points_ : Bool

/-- The constructor (source lines 99-102): the stored stretch factor is
1.0 + max_time_change_per_it. -/
def IterativeSplineParameterization.make (max_time_change_per_it : ℚ)
    (add_points : Bool) : IterativeSplineParameterization :=
  ⟨1 + max_time_change_per_it, add_points⟩

/-- Default limits (source lines 48-50). -/
def VLIMIT : ℚ := 1
def ALIMIT : ℚ := 3
def JLIMIT : ℚ := 9

/-- Scaling-factor coercion (source lines 130-145): values in (0,1] are
used, anything else defaults to 1.0 (with only a log message). -/
def scalingFactor (s : ℚ) : ℚ :=
  if 0 < s ∧ s ≤ 1 then s else 1

/-- One pass of the per-joint blend loop of the point insertion (source
lines 160-168 with weights 9:1, lines 174-182 with weights 1:9): starting
from `base` (the local `point` variable), overwrite each group variable
with (a*p0 + b*p1)/10. -/
def blendPoint (g : JointModelGroup) (a b : ℚ) (p0 p1 base : RobotState) :
    RobotState :=
  (List.range g.varCount).foldl
    (fun pt j =>
      { pt with
        positions := Function.update pt.positions (g.idx j)
          ((a * p0.positions (g.idx j) + b * p1.positions (g.idx j)) / 10)
        velocities := Function.update pt.velocities (g.idx j)
          ((a * p0.velocities (g.idx j) + b * p1.velocities (g.idx j)) / 10)
        accelerations := Function.update pt.accelerations (g.idx j)
          ((a * p0.accelerations (g.idx j) + b * p1.accelerations (g.idx j)) / 10) })
    base

/-- Point insertion (source lines 150-186, compiled in since ENABLE_JERK
is defined): if add_points and the current waypoint count is at least 2,
insert a 9:1 blend of waypoints 0 and 1 at index 1, then a 1:9 blend of
the (now) last two waypoints before the last one, both with duration 0.
`np0` is the stale num_points local read at line 126; the function also
returns the updated num_points.  The C local `point` starts as a copy of
waypoint 0 and is reused for the second insertion. -/
def insertExtraPoints (ap : Bool) (g : JointModelGroup) (np0 : ℕ)
    (traj : RobotTrajectory) : RobotTrajectory × ℕ :=
  if ap then
    if 2 ≤ traj.waypoints.length then
      let p0 := traj.waypoints.getD 0 default
      let p1 := traj.waypoints.getD 1 default
      let point1 := blendPoint g 9 1 p0 p1 p0
      let wps1 := List.insertIdx 1 point1 traj.waypoints
      let ds1 := List.insertIdx 1 0 traj.durations
      let np1 := np0 + 1
      let q0 := wps1.getD (np1 - 2) default
      let q1 := wps1.getD (np1 - 1) default
      let point2 := blendPoint g 1 9 q0 q1 point1
      ({ traj with
          waypoints := List.insertIdx (np1 - 1) point2 wps1
          durations := List.insertIdx (np1 - 1) 0 ds1 },
        np0 + 2)
    else (traj, np0)
  else (traj, np0)

/-- Conversion to [joint][point] order (source lines 192-231): build the
per-joint series, the boundary scalars from waypoints 0 and np-1, and
the scaled bounds (VLIMIT/ALIMIT defaults when unbounded; max_jerk is
always JLIMIT since ENABLE_JERK is defined). -/
def buildT2 (g : JointModelGroup) (velocity_scaling_factor
    acceleration_scaling_factor : ℚ) (np : ℕ) (traj : RobotTrajectory) :
    List SingleJointTrajectory :=
  (List.range g.varCount).map fun j =>
    let b := g.bounds j
    { positions := fun i => (traj.waypoints.getD i default).positions (g.idx j)
      velocities := fun i => (traj.waypoints.getD i default).velocities (g.idx j)
      accelerations := fun i =>
        (traj.waypoints.getD i default).accelerations (g.idx j)
      initial_velocity := (traj.waypoints.getD 0 default).velocities (g.idx j)
      final_velocity :=
        (traj.waypoints.getD (np - 1) default).velocities (g.idx j)
      initial_acceleration :=
        (traj.waypoints.getD 0 default).accelerations (g.idx j)
      final_acceleration :=
        (traj.waypoints.getD (np - 1) default).accelerations (g.idx j)
      max_velocity :=
        (if b.velocity_bounded_ then min |b.max_velocity_| |b.min_velocity_|
         else VLIMIT) * velocity_scaling_factor
      max_acceleration :=
        (if b.acceleration_bounded_ then
          min |b.max_acceleration_| |b.min_acceleration_|
         else ALIMIT) * acceleration_scaling_factor
      max_jerk := JLIMIT }

/-- The infeasible-boundary validation loop (source lines 244-266): some
joint's boundary velocity or acceleration already exceeds its bound. -/
def boundaryBad (t2 : List SingleJointTrajectory) (np : ℕ) : Bool :=
  t2.any fun t =>
    decide (t.max_velocity < |t.velocities 0|) ||
    decide (t.max_velocity < |t.velocities (np - 1)|) ||
    decide (t.max_acceleration < |t.accelerations 0|) ||
    decide (t.max_acceleration < |t.accelerations (np - 1)|)

/-- The inner `while (fit_spline_and_adjust_times(...)) loop = 1` of
source lines 281-284 / 298-301 for one joint: repeat until no stretch,
returning the final durations, the joint series with the refit
velocities/accelerations, and whether any stretch happened.  `none` when
the fuel runs out. -/
def innerFit (n : ℕ) (tf : ℚ) :
    ℕ → (ℕ → ℚ) → SingleJointTrajectory →
    Option ((ℕ → ℚ) × SingleJointTrajectory × Bool)
  | 0, _, _ => none
  | fuel + 1, dt, t =>
    let r := fit_spline_and_adjust_times n dt t.positions t.velocities
      t.max_velocity t.max_acceleration t.max_jerk tf
    let t1 := { t with velocities := r.x1, accelerations := r.x2 }
    if r.ret then
      (innerFit n tf fuel r.dt t1).map fun p => (p.1, p.2.1, true)
    else some (r.dt, t1, false)

/-- One pass of the phase-1 joint loop (source lines 279-285): run the
inner fit loop for each joint in order against the shared durations. -/
def passJoints1 (n : ℕ) (tf : ℚ) (fuel : ℕ) :
    (ℕ → ℚ) → List SingleJointTrajectory →
    Option ((ℕ → ℚ) × List SingleJointTrajectory × Bool)
  | dt, [] => some (dt, [], false)
  | dt, t :: ts =>
    (innerFit n tf fuel dt t).bind fun p =>
      (passJoints1 n tf fuel p.1 ts).map fun q =>
        (q.1, p.2.1 :: q.2.1, p.2.2 || q.2.2)

/-- Phase 1 (source lines 275-286): repeat whole-joint passes until a
pass makes no stretch. -/
def phase1 (n : ℕ) (tf : ℚ) (innerFuel : ℕ) :
    ℕ → (ℕ → ℚ) → List SingleJointTrajectory →
    Option ((ℕ → ℚ) × List SingleJointTrajectory)
  | 0, _, _ => none
  | fuel + 1, dt, ts =>
    (passJoints1 n tf innerFuel dt ts).bind fun p =>
      if p.2.2 then phase1 n tf innerFuel fuel p.1 p.2.1 else some (p.1, p.2.1)

/-- One pass of the phase-2 joint loop (source lines 294-302): for each
joint, adjust_two_positions toward the stored boundary accelerations,
then the inner fit loop. -/
def passJoints2 (n : ℕ) (tf : ℚ) (fuel : ℕ) :
    (ℕ → ℚ) → List SingleJointTrajectory →
    Option ((ℕ → ℚ) × List SingleJointTrajectory × Bool)
  | dt, [] => some (dt, [], false)
  | dt, t :: ts =>
    let a := adjust_two_positions n dt t.positions t.velocities
      t.initial_acceleration t.final_acceleration
    let t0 := { t with
      positions := a.1, velocities := a.2.1, accelerations := a.2.2 }
    (innerFit n tf fuel dt t0).bind fun p =>
      (passJoints2 n tf fuel p.1 ts).map fun q =>
        (q.1, p.2.1 :: q.2.1, p.2.2 || q.2.2)

/-- Phase 2 (source lines 290-303, compiled in since ENABLE_JERK is
defined): repeat adjust-and-fit passes until a pass makes no stretch. -/
def phase2 (n : ℕ) (tf : ℚ) (innerFuel : ℕ) :
    ℕ → (ℕ → ℚ) → List SingleJointTrajectory →
    Option ((ℕ → ℚ) × List SingleJointTrajectory)
  | 0, _, _ => none
  | fuel + 1, dt, ts =>
    (passJoints2 n tf innerFuel dt ts).bind fun p =>
      if p.2.2 then phase2 n tf innerFuel fuel p.1 p.2.1 else some (p.1, p.2.1)

/-- Commit of the durations (source lines 307-308): for i = 1..np-1 set
waypoint i's duration-from-previous to time_diff[i-1]. -/
def commitDurations (np : ℕ) (dtf : ℕ → ℚ) (ds : List ℚ) : List ℚ :=
  (List.range np).foldl
    (fun acc i => if i = 0 then acc else acc.set i (dtf (i - 1))) ds

/-- Commit of one waypoint's values (source lines 309-317): overwrite
each group variable with the final per-joint series values at point i. -/
def commitPoint (g : JointModelGroup) (t2 : List SingleJointTrajectory)
    (i : ℕ) (w : RobotState) : RobotState :=
  (List.range g.varCount).foldl
    (fun w j =>
      { w with
        positions := Function.update w.positions (g.idx j)
          ((t2.getD j default).positions i)
        velocities := Function.update w.velocities (g.idx j)
          ((t2.getD j default).velocities i)
        accelerations := Function.update w.accelerations (g.idx j)
          ((t2.getD j default).accelerations i) })
    w

/-- The full commit (source lines 306-317). -/
def commit (g : JointModelGroup) (np : ℕ) (dtf : ℕ → ℚ)
    (t2 : List SingleJointTrajectory) (traj : RobotTrajectory) :
    RobotTrajectory :=
  { traj with
    durations := commitDurations np dtf traj.durations
    waypoints := (List.range np).map fun i =>
      commitPoint g t2 i (traj.waypoints.getD i default) }

/-- computeTimeStamps (source lines 108-320).  `uw` is the abstract
unwind collaborator (line 148), `fuel` bounds the unbounded convergence
loops (`none` = fuel exhausted; the C code would still be looping).
Control flow, in source order: empty early-success (112), missing-group
failure (115-120), scaling-factor coercion (129-145), unwind (148),
optional point insertion (150-186), conversion to per-joint series
(192-231), the error checks (233-266), time initialization (268-272),
phase 1 (274-286), phase 2 (288-304), commit (306-319). -/
def computeTimeStamps (isp : IterativeSplineParameterization)
    (uw : UnwindModel) (traj : RobotTrajectory)
    (max_velocity_scaling_factor max_acceleration_scaling_factor : ℚ)
    (fuel : ℕ) : Option (Bool × RobotTrajectory) :=
  if traj.waypoints.isEmpty then some (true, traj)
  else
    match traj.group with
    | none => some (false, traj)
    | some g =>
      let acceleration_scaling_factor :=
        scalingFactor max_acceleration_scaling_factor
      let velocity_scaling_factor := scalingFactor max_velocity_scaling_factor
      let np0 := traj.waypoints.length
      let ins := insertExtraPoints isp.add_points_ g np0 (uw traj)
      let traj2 := ins.1
      let num_points := ins.2
      let t2 := buildT2 g velocity_scaling_factor acceleration_scaling_factor
        num_points traj2
      if isp.max_time_change_per_it_ ≤ 1 then some (false, traj2)
      else if num_points < 4 then some (false, traj2)
      else if boundaryBad t2 num_points then some (false, traj2)
      else
        let dt0 : ℕ → ℚ := fun _ => 1 / 100
        let dt1 := t2.foldl
          (fun dt t => init_times num_points dt t.positions t.max_velocity) dt0
        (phase1 num_points isp.max_time_change_per_it_ fuel fuel dt1 t2).bind
          fun p =>
            (phase2 num_points isp.max_time_change_per_it_ fuel fuel p.1
                p.2).map
              fun q => (true, commit g num_points q.1 q.2 traj2)

/-! ## Concrete fixtures used by witnesses and counterexamples -/

/-- The identity unwind model: a trajectory with no wrapped revolute
angles is left unchanged by unwinding. -/
def unwindId : UnwindModel := fun t => t

/-- A one-joint group (variable index 0) with no declared bounds, so the
defaults VLIMIT/ALIMIT/JLIMIT apply. -/
def gFree : JointModelGroup :=
  ⟨1, fun _ => 0, fun _ => ⟨0, 0, false, 0, 0, false⟩⟩

/-- A one-joint group whose variable 0 has velocity bounds [-1, 1]. -/
def gVel1 : JointModelGroup :=
  ⟨1, fun _ => 0, fun _ => ⟨1, -1, true, 3, -3, false⟩⟩

/-- The all-zero waypoint. -/
def wZero : RobotState := ⟨fun _ => 0, fun _ => 0, fun _ => 0⟩

/-- A waypoint at rest in position but with velocity 5 on every
variable. -/
def wVel5 : RobotState := ⟨fun _ => 0, fun _ => 5, fun _ => 0⟩

/-- Four identical zero waypoints on the free group. -/
def trajZero4 : RobotTrajectory :=
  ⟨some gFree, [wZero, wZero, wZero, wZero], [0, 0, 0, 0]⟩

/-- Three identical zero waypoints on the free group. -/
def trajZero3 : RobotTrajectory :=
  ⟨some gFree, [wZero, wZero, wZero], [0, 0, 0]⟩

/-- Two waypoints whose initial velocity 5 exceeds the declared bound 1
of gVel1. -/
def trajBadVel : RobotTrajectory :=
  ⟨some gVel1, [wVel5, wZero], [0, 0]⟩

/-- A nonempty trajectory with no group set. -/
def trajNoGroup : RobotTrajectory := ⟨none, [wZero], [0]⟩

/-- Unit durations. -/
def dtOne : ℕ → ℚ := fun _ => 1

/-- Positions 0, 6, 6, 6: all the motion is on the first segment. -/
def xStep6 : ℕ → ℚ := fun i => if i = 0 then 0 else 6

/-- The all-zero array. -/
def zeroQ : ℕ → ℚ := fun _ => 0

/-- A trajectory with no waypoints at all. -/
def trajEmpty : RobotTrajectory := ⟨some gFree, [], []⟩

/-! ## Lemmas about the tridiagonal solve -/

/-- The forward-sweep coefficients c[i] stay strictly between 0 and 1
when the durations are positive (the diagonal dominance that makes the
Thomas algorithm well posed). -/
theorem splineC_pos_lt (n : ℕ) (dt : ℕ → ℚ)
    (hdt : ∀ j, j < n - 1 → 0 < dt j) :
    ∀ i, i ≤ n - 2 → 0 < splineC dt i ∧ splineC dt i < 1 := by
  intro i
  induction i with
  | zero =>
    intro _
    constructor <;> norm_num [splineC]
  | succ k ih =>
    intro hk
    obtain ⟨hc0, hc1⟩ := ih (by omega)
    have hdk : 0 < dt k := hdt k (by omega)
    have hdk1 : 0 < dt (k + 1) := hdt (k + 1) (by omega)
    have hsum : 0 < dt k + dt (k + 1) := by linarith
    have ha0 : 0 < dt k / (dt k + dt (k + 1)) := div_pos hdk hsum
    have ha1 : dt k / (dt k + dt (k + 1)) < 1 := by
      rw [div_lt_one hsum]; linarith
    have haC : dt k / (dt k + dt (k + 1)) * splineC dt k < 1 := by nlinarith
    constructor
    · rw [splineC]
      exact div_pos (by linarith) (by linarith)
    · rw [splineC]
      rw [div_lt_one (by linarith)]
      nlinarith

/-- Unfolding of the back-substitution at a non-top index: for i at most
n-2, x2[i] = d[i] - c[i] * x2[i+1]. -/
theorem splineX2top_step (n : ℕ) (dt x : ℕ → ℚ) (x1i x1f : ℚ) (i : ℕ)
    (hn : 2 ≤ n) (hi : i ≤ n - 2) :
    splineX2top n dt x x1i x1f (n - 1 - i) =
      splineD dt x x1i i -
        splineC dt i * splineX2top n dt x x1i x1f (n - 1 - (i + 1)) := by
  have h1 : n - 1 - i = (n - 2 - i) + 1 := by omega
  rw [h1, splineX2top]
  have h2 : n - 2 - (n - 2 - i) = i := by omega
  rw [h2]
  have h3 : n - 2 - i = n - 1 - (i + 1) := by omega
  rw [h3]

/-- The top of the back-substitution: x2[n-1] = d[n-1]. -/
theorem splineX2top_last (n : ℕ) (dt x : ℕ → ℚ) (x1i x1f : ℚ) :
    splineX2top n dt x x1i x1f (n - 1 - (n - 1)) =
      splineDlast n dt x x1i x1f := by
  have h : n - 1 - (n - 1) = 0 := by omega
  rw [h, splineX2top]

/-- Row 0 of the clamped tridiagonal system. -/
theorem spline_row_first (n : ℕ) (dt x : ℕ → ℚ) (x1i x1f : ℚ)
    (hn : 2 ≤ n) (hd0 : 0 < dt 0) :
    2 * dt 0 * splineX2top n dt x x1i x1f (n - 1 - 0) +
        dt 0 * splineX2top n dt x x1i x1f (n - 1 - 1) =
      6 * ((x 1 - x 0) / dt 0 - x1i) := by
  have h0 := splineX2top_step n dt x x1i x1f 0 hn (by omega)
  rw [h0, splineD, splineC]
  have hne : dt 0 ≠ 0 := ne_of_gt hd0
  field_simp
  ring

/-- Interior row k+1 of the clamped tridiagonal system. -/
theorem spline_row_interior (n : ℕ) (dt x : ℕ → ℚ) (x1i x1f : ℚ)
    (hdt : ∀ j, j < n - 1 → 0 < dt j) (k : ℕ) (hk : k + 1 ≤ n - 2) :
    dt k * splineX2top n dt x x1i x1f (n - 1 - k) +
        2 * (dt k + dt (k + 1)) * splineX2top n dt x x1i x1f (n - 1 - (k + 1)) +
        dt (k + 1) * splineX2top n dt x x1i x1f (n - 1 - (k + 2)) =
      6 * ((x (k + 2) - x (k + 1)) / dt (k + 1) - (x (k + 1) - x k) / dt k) := by
  have hn : 2 ≤ n := by omega
  have hdk : 0 < dt k := hdt k (by omega)
  have hdk1 : 0 < dt (k + 1) := hdt (k + 1) (by omega)
  have hsum : 0 < dt k + dt (k + 1) := by linarith
  obtain ⟨hc0, hc1⟩ := splineC_pos_lt n dt hdt k (by omega)
  have ha0 : 0 < dt k / (dt k + dt (k + 1)) := div_pos hdk hsum
  have ha1 : dt k / (dt k + dt (k + 1)) < 1 := by
    rw [div_lt_one hsum]; linarith
  have haC : dt k / (dt k + dt (k + 1)) * splineC dt k < 1 := by nlinarith
  have hden : (0:ℚ) < 2 - dt k / (dt k + dt (k + 1)) * splineC dt k := by
    linarith
  have hne3 : dt k + dt (k + 1) ≠ 0 := ne_of_gt hsum
  have hne4 : 2 - dt k / (dt k + dt (k + 1)) * splineC dt k ≠ 0 :=
    ne_of_gt hden
  have h1 := splineX2top_step n dt x x1i x1f k hn (by omega)
  have h2 := splineX2top_step n dt x x1i x1f (k + 1) hn hk
  have hP : splineC dt (k + 1) *
      (2 - dt k / (dt k + dt (k + 1)) * splineC dt k) =
      1 - dt k / (dt k + dt (k + 1)) := by
    rw [splineC]
    exact div_mul_cancel₀ _ hne4
  have hQ : splineD dt x x1i (k + 1) *
      (2 - dt k / (dt k + dt (k + 1)) * splineC dt k) =
      6 * ((x (k + 2) - x (k + 1)) / dt (k + 1) - (x (k + 1) - x k) / dt k) /
          (dt k + dt (k + 1)) -
        dt k / (dt k + dt (k + 1)) * splineD dt x x1i k := by
    rw [splineD]
    exact div_mul_cancel₀ _ hne4
  have hA2 : dt k / (dt k + dt (k + 1)) * (dt k + dt (k + 1)) = dt k :=
    div_mul_cancel₀ _ hne3
  have hd0 : 6 * ((x (k + 2) - x (k + 1)) / dt (k + 1) -
      (x (k + 1) - x k) / dt k) / (dt k + dt (k + 1)) * (dt k + dt (k + 1)) =
      6 * ((x (k + 2) - x (k + 1)) / dt (k + 1) - (x (k + 1) - x k) / dt k) :=
    div_mul_cancel₀ _ hne3
  rw [h1, h2]
  linear_combination (dt k + dt (k + 1)) * hQ -
    (dt k + dt (k + 1)) * splineX2top n dt x x1i x1f (n - 1 - (k + 1 + 1)) * hP +
    hd0 -
    (splineD dt x x1i k - splineC dt k * splineD dt x x1i (k + 1) +
      splineC dt k * splineC dt (k + 1) *
        splineX2top n dt x x1i x1f (n - 1 - (k + 1 + 1)) -
      splineX2top n dt x x1i x1f (n - 1 - (k + 1 + 1))) * hA2

/-- Last row of the clamped tridiagonal system. -/
theorem spline_row_last (n : ℕ) (dt x : ℕ → ℚ) (x1i x1f : ℚ)
    (hn : 2 ≤ n) (hdt : ∀ j, j < n - 1 → 0 < dt j) :
    dt (n - 2) * splineX2top n dt x x1i x1f (n - 1 - (n - 2)) +
        2 * dt (n - 2) * splineX2top n dt x x1i x1f (n - 1 - (n - 1)) =
      6 * (x1f - (x (n - 1) - x (n - 2)) / dt (n - 2)) := by
  have hd : 0 < dt (n - 2) := hdt (n - 2) (by omega)
  obtain ⟨hc0, hc1⟩ := splineC_pos_lt n dt hdt (n - 2) (by omega)
  have h1 := splineX2top_step n dt x x1i x1f (n - 2) hn (by omega)
  have he : n - 1 - (n - 2 + 1) = n - 1 - (n - 1) := by omega
  rw [he] at h1
  rw [h1, splineX2top_last, splineDlast]
  have hne1 : dt (n - 2) ≠ 0 := ne_of_gt hd
  have hne2 : 2 - splineC dt (n - 2) ≠ 0 := by
    intro hc
    nlinarith
  field_simp
  ring

/-- C5: for N at least 2, strictly positive durations, and the clamped
boundary first derivatives supplied in x1[0] and x1[N-1],
fit_cubic_spline computes second derivatives satisfying the clamped
cubic-spline tridiagonal system: the first clamped boundary row, the
interior rows, and the last clamped boundary row. -/
theorem C5_tridiagonal (n : ℕ) (dt x x1 : ℕ → ℚ) (hn : 2 ≤ n)
    (hdt : ∀ i, i < n - 1 → 0 < dt i) :
    (2 * dt 0 * (fit_cubic_spline n dt x x1).2 0 +
        dt 0 * (fit_cubic_spline n dt x x1).2 1 =
      6 * ((x 1 - x 0) / dt 0 - x1 0))
    ∧ (∀ i, 1 ≤ i → i ≤ n - 2 →
        dt (i - 1) * (fit_cubic_spline n dt x x1).2 (i - 1) +
            2 * (dt (i - 1) + dt i) * (fit_cubic_spline n dt x x1).2 i +
            dt i * (fit_cubic_spline n dt x x1).2 (i + 1) =
          6 * ((x (i + 1) - x i) / dt i - (x i - x (i - 1)) / dt (i - 1)))
    ∧ (dt (n - 2) * (fit_cubic_spline n dt x x1).2 (n - 2) +
        2 * dt (n - 2) * (fit_cubic_spline n dt x x1).2 (n - 1) =
      6 * (x1 (n - 1) - (x (n - 1) - x (n - 2)) / dt (n - 2))) := by
  refine ⟨?_, ?_, ?_⟩
  · have h := spline_row_first n dt x (x1 0) (x1 (n - 1)) hn (hdt 0 (by omega))
    exact h
  · intro i h1 h2
    obtain ⟨k, rfl⟩ : ∃ k, i = k + 1 := ⟨i - 1, by omega⟩
    have h := spline_row_interior n dt x (x1 0) (x1 (n - 1)) hdt k h2
    simpa using h
  · exact spline_row_last n dt x (x1 0) (x1 (n - 1)) hn hdt

/-- Witness for C5 at the concrete input n = 4, dt = 1, x = (0,6,6,6),
zero boundary velocities: the first clamped row holds. -/
theorem C5_witness :
    2 * dtOne 0 * (fit_cubic_spline 4 dtOne xStep6 zeroQ).2 0 +
        dtOne 0 * (fit_cubic_spline 4 dtOne xStep6 zeroQ).2 1 =
      6 * ((xStep6 1 - xStep6 0) / dtOne 0 - zeroQ 0) :=
  (C5_tridiagonal 4 dtOne xStep6 zeroQ (by norm_num)
    (fun i _ => by norm_num [dtOne])).1

/-! ## Boundary preservation lemmas -/

/-- Every fit leaves x1[0] unchanged (line 387; when n = 1 the later
write of line 390 writes the same value x1[n-1] = x1[0]). -/
theorem fit_cubic_spline_x1_zero (n : ℕ) (dt x x1 : ℕ → ℚ) :
    (fit_cubic_spline n dt x x1).1 0 = x1 0 := by
  show (if (0:ℕ) = n - 1 then x1 (n - 1) else if (0:ℕ) = 0 then x1 0 else _) =
    x1 0
  by_cases h : (0:ℕ) = n - 1
  · rw [if_pos h, ← h]
  · rw [if_neg h, if_pos rfl]

/-- Every fit leaves x1[n-1] unchanged (line 390). -/
theorem fit_cubic_spline_x1_last (n : ℕ) (dt x x1 : ℕ → ℚ) :
    (fit_cubic_spline n dt x x1).1 (n - 1) = x1 (n - 1) := by
  show (if n - 1 = n - 1 then x1 (n - 1) else _) = x1 (n - 1)
  rw [if_pos rfl]

/-- The bound checker's x1 output is exactly the fit's x1 output. -/
theorem fit_adjust_x1_eq (n : ℕ) (dt x x1 : ℕ → ℚ) (vl al jl tf : ℚ) :
    (fit_spline_and_adjust_times n dt x x1 vl al jl tf).x1 =
      (fit_cubic_spline n dt x x1).1 := by
  unfold fit_spline_and_adjust_times
  dsimp only
  split <;> [rfl; skip]
  split <;> [rfl; skip]
  split <;> rfl

/-- The endpoint-curvature solver's x1 output is the second probe fit's
x1 output. -/
theorem adjust_x1_eq (n : ℕ) (dt x x1 : ℕ → ℚ) (x2i x2f : ℚ) :
    (adjust_two_positions n dt x x1 x2i x2f).2.1 =
      (fit_cubic_spline n dt (adjustProbe2 n x)
        (fit_cubic_spline n dt (adjustProbe1 n x) x1).1).1 := by
  unfold adjust_two_positions
  rfl

/-- The per-joint series built from the trajectory starts with its
boundary velocity entries equal to the stored fixed initial/final
velocities: both are read from the same waypoints (source lines 201-202
and 228). -/
theorem buildT2_velocity_bounds (g : JointModelGroup) (vsf asf : ℚ)
    (np : ℕ) (traj : RobotTrajectory) (j : ℕ) :
    ((buildT2 g vsf asf np traj).getD j default).velocities 0 =
      ((buildT2 g vsf asf np traj).getD j default).initial_velocity
    ∧ ((buildT2 g vsf asf np traj).getD j default).velocities (np - 1) =
      ((buildT2 g vsf asf np traj).getD j default).final_velocity := by
  rcases Nat.lt_or_ge j g.varCount with hj | hj
  · have hj' : j < (buildT2 g vsf asf np traj).length := by
      simpa [buildT2] using hj
    rw [List.getD_eq_getElem _ _ hj']
    simp [buildT2]
  · have hj' : (buildT2 g vsf asf np traj).length ≤ j := by
      simpa [buildT2] using hj
    rw [List.getD_eq_default _ _ hj']
    exact ⟨rfl, rfl⟩

/-- C7: the velocity at waypoint 0 and at waypoint N-1 equal the joint's
fixed initial/final velocity after every fit performed anywhere in the
run: the series starts with velocities[0]/velocities[N-1] equal to the
stored boundary scalars, fit_cubic_spline restores x1[0] and x1[N-1]
exactly (the spline is clamped), the bound checker returns the fit's x1
unchanged, and adjust_two_positions chains two fits, each of which
preserves both entries. -/
theorem C7_clamped_boundaries :
    (∀ n dt x x1, (fit_cubic_spline n dt x x1).1 0 = x1 0
      ∧ (fit_cubic_spline n dt x x1).1 (n - 1) = x1 (n - 1))
    ∧ (∀ n dt x x1 vl al jl tf,
        (fit_spline_and_adjust_times n dt x x1 vl al jl tf).x1 0 = x1 0
        ∧ (fit_spline_and_adjust_times n dt x x1 vl al jl tf).x1 (n - 1) =
          x1 (n - 1))
    ∧ (∀ n dt x x1 x2i x2f,
        (adjust_two_positions n dt x x1 x2i x2f).2.1 0 = x1 0
        ∧ (adjust_two_positions n dt x x1 x2i x2f).2.1 (n - 1) = x1 (n - 1))
    ∧ (∀ g vsf asf np traj j,
        ((buildT2 g vsf asf np traj).getD j default).velocities 0 =
          ((buildT2 g vsf asf np traj).getD j default).initial_velocity
        ∧ ((buildT2 g vsf asf np traj).getD j default).velocities (np - 1) =
          ((buildT2 g vsf asf np traj).getD j default).final_velocity) := by
  refine ⟨fun n dt x x1 =>
      ⟨fit_cubic_spline_x1_zero n dt x x1, fit_cubic_spline_x1_last n dt x x1⟩,
    fun n dt x x1 vl al jl tf => ?_, fun n dt x x1 x2i x2f => ?_,
    fun g vsf asf np traj j => buildT2_velocity_bounds g vsf asf np traj j⟩
  · rw [fit_adjust_x1_eq]
    exact ⟨fit_cubic_spline_x1_zero n dt x x1, fit_cubic_spline_x1_last n dt x x1⟩
  · rw [adjust_x1_eq]
    constructor
    · rw [fit_cubic_spline_x1_zero, fit_cubic_spline_x1_zero]
    · rw [fit_cubic_spline_x1_last, fit_cubic_spline_x1_last]

/-! ## Frame lemmas: which positions are ever written -/

/-- adjust_two_positions writes positions only at indices 1 and n-2. -/
theorem adjust_positions_frame (n : ℕ) (dt x x1 : ℕ → ℚ) (x2i x2f : ℚ)
    (i : ℕ) (h1 : i ≠ 1) (h2 : i ≠ n - 2) :
    (adjust_two_positions n dt x x1 x2i x2f).1 i = x i := by
  simp only [adjust_two_positions]
  split_ifs <;>
    simp only [adjustProbe2, adjustProbe1, Function.update_noteq h1,
      Function.update_noteq h2]

/-- The inner fit loop never touches the positions array. -/
theorem innerFit_positions (n : ℕ) (tf : ℚ) :
    ∀ fuel dt t dt2 t2 b, innerFit n tf fuel dt t = some (dt2, t2, b) →
      t2.positions = t.positions := by
  intro fuel
  induction fuel with
  | zero =>
    intro dt t dt2 t2 b h
    simp [innerFit] at h
  | succ f ih =>
    intro dt t dt2 t2 b h
    simp only [innerFit] at h
    split at h
    · rw [Option.map_eq_some'] at h
      obtain ⟨⟨dta, ta, ba⟩, hp, hmk⟩ := h
      simp only [Prod.mk.injEq] at hmk
      obtain ⟨rfl, rfl, rfl⟩ := hmk
      exact (ih _ _ _ _ _ hp).trans rfl
    · simp only [Option.some.injEq, Prod.mk.injEq] at h
      obtain ⟨rfl, rfl, rfl⟩ := h
      rfl

/-- A phase-1 pass keeps the joint count and every joint's positions. -/
theorem passJoints1_positions (n : ℕ) (tf : ℚ) (fuel : ℕ) :
    ∀ ts dt dt2 ts2 b, passJoints1 n tf fuel dt ts = some (dt2, ts2, b) →
      ts2.length = ts.length ∧
      ∀ j, (ts2.getD j default).positions = (ts.getD j default).positions := by
  intro ts
  induction ts with
  | nil =>
    intro dt dt2 ts2 b h
    simp only [passJoints1, Option.some.injEq, Prod.mk.injEq] at h
    obtain ⟨rfl, rfl, rfl⟩ := h
    exact ⟨rfl, fun j => rfl⟩
  | cons t ts ih =>
    intro dt dt2 ts2 b h
    simp only [passJoints1, Option.bind_eq_some, Option.map_eq_some'] at h
    obtain ⟨⟨dta, ta, ba⟩, hp, ⟨dtb, tsb, bb⟩, hq, hmk⟩ := h
    simp only [Prod.mk.injEq] at hmk
    obtain ⟨rfl, rfl, rfl⟩ := hmk
    obtain ⟨hlen, hpos⟩ := ih _ _ _ _ hq
    refine ⟨by simp [hlen], fun j => ?_⟩
    cases j with
    | zero => simpa using innerFit_positions n tf _ _ _ _ _ _ hp
    | succ j => simpa using hpos j

/-- Phase 1 keeps the joint count and every joint's positions. -/
theorem phase1_positions (n : ℕ) (tf : ℚ) (innerFuel : ℕ) :
    ∀ fuel dt ts dt2 ts2, phase1 n tf innerFuel fuel dt ts = some (dt2, ts2) →
      ts2.length = ts.length ∧
      ∀ j, (ts2.getD j default).positions = (ts.getD j default).positions := by
  intro fuel
  induction fuel with
  | zero =>
    intro dt ts dt2 ts2 h
    simp [phase1] at h
  | succ f ih =>
    intro dt ts dt2 ts2 h
    simp only [phase1, Option.bind_eq_some] at h
    obtain ⟨⟨dta, tsa, ba⟩, hp, hbr⟩ := h
    obtain ⟨hlen1, hpos1⟩ := passJoints1_positions n tf innerFuel _ _ _ _ _ hp
    cases ba with
    | true =>
      rw [if_pos rfl] at hbr
      obtain ⟨hlen2, hpos2⟩ := ih _ _ _ _ hbr
      exact ⟨hlen2.trans hlen1, fun j => (hpos2 j).trans (hpos1 j)⟩
    | false =>
      rw [if_neg (by simp)] at hbr
      simp only [Option.some.injEq, Prod.mk.injEq] at hbr
      obtain ⟨rfl, rfl⟩ := hbr
      exact ⟨hlen1, hpos1⟩

/-- A phase-2 pass keeps the joint count and every joint's positions away
from indices 1 and n-2. -/
theorem passJoints2_positions (n : ℕ) (tf : ℚ) (fuel : ℕ) :
    ∀ ts dt dt2 ts2 b, passJoints2 n tf fuel dt ts = some (dt2, ts2, b) →
      ts2.length = ts.length ∧
      ∀ j i, i ≠ 1 → i ≠ n - 2 →
        (ts2.getD j default).positions i = (ts.getD j default).positions i := by
  intro ts
  induction ts with
  | nil =>
    intro dt dt2 ts2 b h
    simp only [passJoints2, Option.some.injEq, Prod.mk.injEq] at h
    obtain ⟨rfl, rfl, rfl⟩ := h
    exact ⟨rfl, fun j i _ _ => rfl⟩
  | cons t ts ih =>
    intro dt dt2 ts2 b h
    simp only [passJoints2, Option.bind_eq_some, Option.map_eq_some'] at h
    obtain ⟨⟨dta, ta, ba⟩, hp, ⟨dtb, tsb, bb⟩, hq, hmk⟩ := h
    simp only [Prod.mk.injEq] at hmk
    obtain ⟨rfl, rfl, rfl⟩ := hmk
    obtain ⟨hlen, hpos⟩ := ih _ _ _ _ hq
    refine ⟨by simp [hlen], fun j i hi1 hi2 => ?_⟩
    cases j with
    | zero =>
      have hfit := innerFit_positions n tf _ _ _ _ _ _ hp
      simp only [List.getD_cons_zero]
      rw [hfit]
      exact adjust_positions_frame n dt t.positions t.velocities
        t.initial_acceleration t.final_acceleration i hi1 hi2
    | succ j => simpa using hpos j i hi1 hi2

/-- Phase 2 keeps the joint count and every joint's positions away from
indices 1 and n-2. -/
theorem phase2_positions (n : ℕ) (tf : ℚ) (innerFuel : ℕ) :
    ∀ fuel dt ts dt2 ts2, phase2 n tf innerFuel fuel dt ts = some (dt2, ts2) →
      ts2.length = ts.length ∧
      ∀ j i, i ≠ 1 → i ≠ n - 2 →
        (ts2.getD j default).positions i = (ts.getD j default).positions i := by
  intro fuel
  induction fuel with
  | zero =>
    intro dt ts dt2 ts2 h
    simp [phase2] at h
  | succ f ih =>
    intro dt ts dt2 ts2 h
    simp only [phase2, Option.bind_eq_some] at h
    obtain ⟨⟨dta, tsa, ba⟩, hp, hbr⟩ := h
    obtain ⟨hlen1, hpos1⟩ := passJoints2_positions n tf innerFuel _ _ _ _ _ hp
    cases ba with
    | true =>
      rw [if_pos rfl] at hbr
      obtain ⟨hlen2, hpos2⟩ := ih _ _ _ _ hbr
      exact ⟨hlen2.trans hlen1, fun j i hi1 hi2 =>
        (hpos2 j i hi1 hi2).trans (hpos1 j i hi1 hi2)⟩
    | false =>
      rw [if_neg (by simp)] at hbr
      simp only [Option.some.injEq, Prod.mk.injEq] at hbr
      obtain ⟨rfl, rfl⟩ := hbr
      exact ⟨hlen1, hpos1⟩

/-- C8: across all core iterations only positions at index 1 and index
N-2 are ever written: adjust_two_positions leaves every other index of
the position array unchanged; the phase-1 loop (which only refits and
stretches) preserves every joint's positions entirely; and the phase-2
loop (which also runs the endpoint-curvature solver) preserves every
position at indices other than 1 and N-2. -/
theorem C8_position_frame :
    (∀ n dt x x1 x2i x2f i, i ≠ 1 → i ≠ n - 2 →
      (adjust_two_positions n dt x x1 x2i x2f).1 i = x i)
    ∧ (∀ n tf innerFuel fuel dt ts dt2 ts2,
        phase1 n tf innerFuel fuel dt ts = some (dt2, ts2) →
        ts2.length = ts.length ∧
        ∀ j, (ts2.getD j default).positions = (ts.getD j default).positions)
    ∧ (∀ n tf innerFuel fuel dt ts dt2 ts2,
        phase2 n tf innerFuel fuel dt ts = some (dt2, ts2) →
        ts2.length = ts.length ∧
        ∀ j i, i ≠ 1 → i ≠ n - 2 →
          (ts2.getD j default).positions i = (ts.getD j default).positions i) :=
  ⟨fun n dt x x1 x2i x2f i h1 h2 =>
      adjust_positions_frame n dt x x1 x2i x2f i h1 h2,
    fun n tf innerFuel fuel dt ts dt2 ts2 h =>
      phase1_positions n tf innerFuel fuel dt ts dt2 ts2 h,
    fun n tf innerFuel fuel dt ts dt2 ts2 h =>
      phase2_positions n tf innerFuel fuel dt ts dt2 ts2 h⟩

/-- Witness for C8 at a concrete input: index 0 of the position array is
untouched by adjust_two_positions. -/
theorem C8_witness :
    (adjust_two_positions 4 dtOne xStep6 zeroQ 0 0).1 0 = xStep6 0 :=
  C8_position_frame.1 4 dtOne xStep6 zeroQ 0 0 0 (by decide) (by decide)

/-- C9: in adjust_two_positions, each end's secant assignment is skipped
when its two probe curvatures coincide: if a2 = a0 the output position
at index 1 is the second probe value x[2] (no secant division is
attempted), and independently if b2 = b0 the output at index N-2 is
x[N-1].  The function is total: the degenerate case produces a result
rather than an error. -/
theorem C9_degenerate_skip (n : ℕ) (dt x x1 : ℕ → ℚ) (x2i x2f : ℚ)
    (hn : 5 ≤ n) :
    ((fit_cubic_spline n dt (adjustProbe2 n x)
        (fit_cubic_spline n dt (adjustProbe1 n x) x1).1).2 0 =
      (fit_cubic_spline n dt (adjustProbe1 n x) x1).2 0 →
      (adjust_two_positions n dt x x1 x2i x2f).1 1 = x 2)
    ∧ ((fit_cubic_spline n dt (adjustProbe2 n x)
        (fit_cubic_spline n dt (adjustProbe1 n x) x1).1).2 (n - 1) =
      (fit_cubic_spline n dt (adjustProbe1 n x) x1).2 (n - 1) →
      (adjust_two_positions n dt x x1 x2i x2f).1 (n - 2) = x (n - 1)) := by
  have h12 : (1 : ℕ) ≠ n - 2 := by omega
  have h21 : (2 : ℕ) ≠ 1 := by omega
  have h22 : (2 : ℕ) ≠ n - 2 := by omega
  have h31 : n - 2 ≠ 1 := by omega
  have hn11 : n - 1 ≠ 1 := by omega
  have hn12 : n - 1 ≠ n - 2 := by omega
  constructor
  · intro ha
    simp only [adjust_two_positions, ne_eq, ha, not_true_eq_false, if_false]
    split_ifs with hb <;>
      simp [adjustProbe2, adjustProbe1, Function.update_apply, h12, h21, h22]
  · intro hb
    simp only [adjust_two_positions, ne_eq, hb, not_true_eq_false, if_false]
    split_ifs with ha <;>
      simp [adjustProbe2, adjustProbe1, Function.update_apply, h12, h21, h22,
        h31, hn11, hn12]

/-- Witness for C9 at the concrete degenerate input n = 5 with constant
zero positions: the probe curvatures coincide and the index-1 position
comes back as x[2] = 0. -/
theorem C9_witness :
    (adjust_two_positions 5 dtOne zeroQ zeroQ 0 0).1 1 = zeroQ 2 :=
  (C9_degenerate_skip 5 dtOne zeroQ zeroQ 0 0 (by norm_num)).1
    (by with_unfolding_all decide)

/-! ## Monotonicity and positivity of the shared duration vector -/

/-- init_times never lowers a duration. -/
theorem init_times_mono (n : ℕ) (dt x : ℕ → ℚ) (mv : ℚ) (i : ℕ) :
    dt i ≤ init_times n dt x mv i := by
  unfold init_times
  split_ifs with h1 h2
  · exact le_of_lt h2
  · exact le_refl _
  · exact le_refl _

/-- init_times keeps durations strictly positive. -/
theorem init_times_pos (n : ℕ) (dt x : ℕ → ℚ) (mv : ℚ) (i : ℕ)
    (h : 0 < dt i) : 0 < init_times n dt x mv i :=
  lt_of_lt_of_le h (init_times_mono n dt x mv i)

/-- Each duration leaves one bound-checker call either unchanged or
multiplied by the stretch factor. -/
theorem fit_adjust_dt_cases (n : ℕ) (dt x x1 : ℕ → ℚ) (vl al jl tf : ℚ)
    (i : ℕ) :
    (fit_spline_and_adjust_times n dt x x1 vl al jl tf).dt i = dt i ∨
    (fit_spline_and_adjust_times n dt x x1 vl al jl tf).dt i = dt i * tf := by
  simp only [fit_spline_and_adjust_times]
  split_ifs with h1 h2 h3
  · dsimp only
    split_ifs
    · exact Or.inr rfl
    · exact Or.inl rfl
  · dsimp only
    split_ifs
    · exact Or.inr rfl
    · exact Or.inl rfl
  · dsimp only
    split_ifs
    · exact Or.inr rfl
    · exact Or.inl rfl
  · exact Or.inl rfl

/-- One bound-checker call never lowers a positive duration and keeps it
positive, provided the stretch factor exceeds 1. -/
theorem fit_adjust_dt_mono (n : ℕ) (dt x x1 : ℕ → ℚ) (vl al jl tf : ℚ)
    (htf : 1 < tf) (i : ℕ) (hpos : 0 < dt i) :
    dt i ≤ (fit_spline_and_adjust_times n dt x x1 vl al jl tf).dt i ∧
    0 < (fit_spline_and_adjust_times n dt x x1 vl al jl tf).dt i := by
  rcases fit_adjust_dt_cases n dt x x1 vl al jl tf i with h | h <;> rw [h]
  · exact ⟨le_refl _, hpos⟩
  · exact ⟨le_mul_of_one_le_right hpos.le htf.le,
      mul_pos hpos (lt_trans one_pos htf)⟩

/-- The inner fit loop never lowers durations and keeps them positive. -/
theorem innerFit_dt_mono (n : ℕ) (tf : ℚ) (htf : 1 < tf) :
    ∀ fuel dt t dt2 t2 b, innerFit n tf fuel dt t = some (dt2, t2, b) →
      (∀ i, 0 < dt i) → ∀ i, dt i ≤ dt2 i ∧ 0 < dt2 i := by
  intro fuel
  induction fuel with
  | zero =>
    intro dt t dt2 t2 b h hpos
    simp [innerFit] at h
  | succ f ih =>
    intro dt t dt2 t2 b h hpos
    have hstep := fun j => fit_adjust_dt_mono n dt t.positions t.velocities
      t.max_velocity t.max_acceleration t.max_jerk tf htf j (hpos j)
    simp only [innerFit] at h
    split at h
    · rw [Option.map_eq_some'] at h
      obtain ⟨⟨dta, ta, ba⟩, hp, hmk⟩ := h
      simp only [Prod.mk.injEq] at hmk
      obtain ⟨rfl, rfl, rfl⟩ := hmk
      have hrec := ih _ _ _ _ _ hp (fun j => (hstep j).2)
      exact fun i => ⟨le_trans (hstep i).1 (hrec i).1, (hrec i).2⟩
    · simp only [Option.some.injEq, Prod.mk.injEq] at h
      obtain ⟨rfl, rfl, rfl⟩ := h
      exact hstep

/-- A phase-1 pass never lowers durations and keeps them positive. -/
theorem passJoints1_dt_mono (n : ℕ) (tf : ℚ) (htf : 1 < tf) (fuel : ℕ) :
    ∀ ts dt dt2 ts2 b, passJoints1 n tf fuel dt ts = some (dt2, ts2, b) →
      (∀ i, 0 < dt i) → ∀ i, dt i ≤ dt2 i ∧ 0 < dt2 i := by
  intro ts
  induction ts with
  | nil =>
    intro dt dt2 ts2 b h hpos
    simp only [passJoints1, Option.some.injEq, Prod.mk.injEq] at h
    obtain ⟨rfl, rfl, rfl⟩ := h
    exact fun i => ⟨le_refl _, hpos i⟩
  | cons t ts ih =>
    intro dt dt2 ts2 b h hpos
    simp only [passJoints1, Option.bind_eq_some, Option.map_eq_some'] at h
    obtain ⟨⟨dta, ta, ba⟩, hp, ⟨dtb, tsb, bb⟩, hq, hmk⟩ := h
    simp only [Prod.mk.injEq] at hmk
    obtain ⟨rfl, rfl, rfl⟩ := hmk
    have h1 := innerFit_dt_mono n tf htf _ _ _ _ _ _ hp hpos
    have h2 := ih _ _ _ _ hq (fun j => (h1 j).2)
    exact fun i => ⟨le_trans (h1 i).1 (h2 i).1, (h2 i).2⟩

/-- Phase 1 never lowers durations and keeps them positive. -/
theorem phase1_dt_mono (n : ℕ) (tf : ℚ) (htf : 1 < tf) (innerFuel : ℕ) :
    ∀ fuel dt ts dt2 ts2, phase1 n tf innerFuel fuel dt ts = some (dt2, ts2) →
      (∀ i, 0 < dt i) → ∀ i, dt i ≤ dt2 i ∧ 0 < dt2 i := by
  intro fuel
  induction fuel with
  | zero =>
    intro dt ts dt2 ts2 h hpos
    simp [phase1] at h
  | succ f ih =>
    intro dt ts dt2 ts2 h hpos
    simp only [phase1, Option.bind_eq_some] at h
    obtain ⟨⟨dta, tsa, ba⟩, hp, hbr⟩ := h
    have h1 := passJoints1_dt_mono n tf htf innerFuel _ _ _ _ _ hp hpos
    cases ba with
    | true =>
      rw [if_pos rfl] at hbr
      have h2 := ih _ _ _ _ hbr (fun j => (h1 j).2)
      exact fun i => ⟨le_trans (h1 i).1 (h2 i).1, (h2 i).2⟩
    | false =>
      rw [if_neg (by simp)] at hbr
      simp only [Option.some.injEq, Prod.mk.injEq] at hbr
      obtain ⟨rfl, rfl⟩ := hbr
      exact h1

/-- A phase-2 pass never lowers durations and keeps them positive (the
endpoint-curvature solver reads but never writes the durations). -/
theorem passJoints2_dt_mono (n : ℕ) (tf : ℚ) (htf : 1 < tf) (fuel : ℕ) :
    ∀ ts dt dt2 ts2 b, passJoints2 n tf fuel dt ts = some (dt2, ts2, b) →
      (∀ i, 0 < dt i) → ∀ i, dt i ≤ dt2 i ∧ 0 < dt2 i := by
  intro ts
  induction ts with
  | nil =>
    intro dt dt2 ts2 b h hpos
    simp only [passJoints2, Option.some.injEq, Prod.mk.injEq] at h
    obtain ⟨rfl, rfl, rfl⟩ := h
    exact fun i => ⟨le_refl _, hpos i⟩
  | cons t ts ih =>
    intro dt dt2 ts2 b h hpos
    simp only [passJoints2, Option.bind_eq_some, Option.map_eq_some'] at h
    obtain ⟨⟨dta, ta, ba⟩, hp, ⟨dtb, tsb, bb⟩, hq, hmk⟩ := h
    simp only [Prod.mk.injEq] at hmk
    obtain ⟨rfl, rfl, rfl⟩ := hmk
    have h1 := innerFit_dt_mono n tf htf _ _ _ _ _ _ hp hpos
    have h2 := ih _ _ _ _ hq (fun j => (h1 j).2)
    exact fun i => ⟨le_trans (h1 i).1 (h2 i).1, (h2 i).2⟩

/-- Phase 2 never lowers durations and keeps them positive. -/
theorem phase2_dt_mono (n : ℕ) (tf : ℚ) (htf : 1 < tf) (innerFuel : ℕ) :
    ∀ fuel dt ts dt2 ts2, phase2 n tf innerFuel fuel dt ts = some (dt2, ts2) →
      (∀ i, 0 < dt i) → ∀ i, dt i ≤ dt2 i ∧ 0 < dt2 i := by
  intro fuel
  induction fuel with
  | zero =>
    intro dt ts dt2 ts2 h hpos
    simp [phase2] at h
  | succ f ih =>
    intro dt ts dt2 ts2 h hpos
    simp only [phase2, Option.bind_eq_some] at h
    obtain ⟨⟨dta, tsa, ba⟩, hp, hbr⟩ := h
    have h1 := passJoints2_dt_mono n tf htf innerFuel _ _ _ _ _ hp hpos
    cases ba with
    | true =>
      rw [if_pos rfl] at hbr
      have h2 := ih _ _ _ _ hbr (fun j => (h1 j).2)
      exact fun i => ⟨le_trans (h1 i).1 (h2 i).1, (h2 i).2⟩
    | false =>
      rw [if_neg (by simp)] at hbr
      simp only [Option.some.injEq, Prod.mk.injEq] at hbr
      obtain ⟨rfl, rfl⟩ := hbr
      exact h1

/-- C6: the shared segment durations are strictly positive and
monotonically non-decreasing across the whole run: time initialization
only raises durations; a bound-checker call either keeps a duration or
multiplies it by the stretch factor tfactor greater than 1; and both
convergence phases, whenever they terminate, return durations that are
pointwise no smaller than their inputs and still positive. -/
theorem C6_monotone :
    (∀ n dt x mv i, dt i ≤ init_times n dt x mv i)
    ∧ (∀ n dt x mv i, 0 < dt i → 0 < init_times n dt x mv i)
    ∧ (∀ n dt x x1 vl al jl tf i, 1 < tf → 0 < dt i →
        dt i ≤ (fit_spline_and_adjust_times n dt x x1 vl al jl tf).dt i
        ∧ 0 < (fit_spline_and_adjust_times n dt x x1 vl al jl tf).dt i)
    ∧ (∀ n tf innerFuel fuel dt ts dt2 ts2, 1 < tf →
        phase1 n tf innerFuel fuel dt ts = some (dt2, ts2) →
        (∀ i, 0 < dt i) → ∀ i, dt i ≤ dt2 i ∧ 0 < dt2 i)
    ∧ (∀ n tf innerFuel fuel dt ts dt2 ts2, 1 < tf →
        phase2 n tf innerFuel fuel dt ts = some (dt2, ts2) →
        (∀ i, 0 < dt i) → ∀ i, dt i ≤ dt2 i ∧ 0 < dt2 i) :=
  ⟨fun n dt x mv i => init_times_mono n dt x mv i,
    fun n dt x mv i h => init_times_pos n dt x mv i h,
    fun n dt x x1 vl al jl tf i htf hpos =>
      fit_adjust_dt_mono n dt x x1 vl al jl tf htf i hpos,
    fun n tf innerFuel fuel dt ts dt2 ts2 htf h hpos =>
      phase1_dt_mono n tf htf innerFuel fuel dt ts dt2 ts2 h hpos,
    fun n tf innerFuel fuel dt ts dt2 ts2 htf h hpos =>
      phase2_dt_mono n tf htf innerFuel fuel dt ts dt2 ts2 h hpos⟩

/-- Witness for C6 at a concrete input: one bound-checker call on the
step trajectory with stretch factor 2 does not lower segment 0's
duration and keeps it positive. -/
theorem C6_witness :
    (dtOne 0 ≤ (fit_spline_and_adjust_times 4 dtOne xStep6 zeroQ 2 2 9 2).dt 0
      ∧ 0 < (fit_spline_and_adjust_times 4 dtOne xStep6 zeroQ 2 2 9 2).dt 0)
    ∧ (dtOne 0 ≤ dtOne 0 ∧ 0 < dtOne 0) :=
  ⟨C6_monotone.2.2.1 4 dtOne xStep6 zeroQ 2 2 9 2 0 (by norm_num)
      (by norm_num [dtOne]),
    C6_monotone.2.2.2.1 4 2 1 1 dtOne [] dtOne [] (by norm_num) rfl
      (fun i => by norm_num [dtOne]) 0⟩

/-! ## The bound checker's short-circuit structure (claim C2) -/

/-- Bridge between the Bool any-scan over segment indices and the
corresponding bounded existential. -/
theorem anyRange_iff (m : ℕ) (p : ℕ → Prop) [DecidablePred p] :
    ((List.range m).any fun i => decide (p i)) = true ↔ ∃ i, i < m ∧ p i := by
  simp [List.any_eq_true, List.mem_range]

/-- C2 counterexample input: with n = 4, unit durations, positions
(0,6,6,6), zero boundary velocities, vlimit = alimit = 2, the fitted
velocities are (0, 24/5, -6/5, 0) and accelerations
(132/5, -84/5, 24/5, -12/5).  Segment 0 violates the velocity bound,
segment 2 does not (|−6/5| and |0| are below 2) but violates the
acceleration bound through |x2[2]| = 24/5; yet the pass leaves dt[2]
unchanged, because the acceleration loop runs only when no velocity
stretch happened anywhere.  This refutes the claim that the three bound
categories are evaluated independently in the same pass. -/
theorem C2_counterexample :
    (2 < |(fit_cubic_spline 4 dtOne xStep6 zeroQ).1 1|)
    ∧ (2 < |(fit_cubic_spline 4 dtOne xStep6 zeroQ).2 2|)
    ∧ ¬(2 < |(fit_cubic_spline 4 dtOne xStep6 zeroQ).1 2|)
    ∧ ¬(2 < |(fit_cubic_spline 4 dtOne xStep6 zeroQ).1 3|)
    ∧ (fit_spline_and_adjust_times 4 dtOne xStep6 zeroQ 2 2 9 2).dt 2 =
      dtOne 2 := by
  with_unfolding_all decide

/-- C2 amended: the three bound categories are checked with category
short-circuiting, not independently.  If any segment violates the
velocity bound, the pass stretches exactly the velocity-violating
segments and the acceleration and jerk checks do not run; only if no
velocity violation exists anywhere does the acceleration scan run; only
if neither fires does the jerk scan run. -/
theorem C2_amended (n : ℕ) (dt x x1 : ℕ → ℚ) (vl al jl tf : ℚ) :
    ((∃ i, i < n - 1 ∧ (vl < |(fit_cubic_spline n dt x x1).1 i| ∨
        vl < |(fit_cubic_spline n dt x x1).1 (i + 1)|)) →
      ∀ i, (fit_spline_and_adjust_times n dt x x1 vl al jl tf).dt i =
        if i < n - 1 ∧ (vl < |(fit_cubic_spline n dt x x1).1 i| ∨
            vl < |(fit_cubic_spline n dt x x1).1 (i + 1)|) then dt i * tf
        else dt i)
    ∧ (¬(∃ i, i < n - 1 ∧ (vl < |(fit_cubic_spline n dt x x1).1 i| ∨
          vl < |(fit_cubic_spline n dt x x1).1 (i + 1)|)) →
       (∃ i, i < n - 1 ∧ (al < |(fit_cubic_spline n dt x x1).2 i| ∨
          al < |(fit_cubic_spline n dt x x1).2 (i + 1)|)) →
      ∀ i, (fit_spline_and_adjust_times n dt x x1 vl al jl tf).dt i =
        if i < n - 1 ∧ (al < |(fit_cubic_spline n dt x x1).2 i| ∨
            al < |(fit_cubic_spline n dt x x1).2 (i + 1)|) then dt i * tf
        else dt i)
    ∧ (¬(∃ i, i < n - 1 ∧ (vl < |(fit_cubic_spline n dt x x1).1 i| ∨
          vl < |(fit_cubic_spline n dt x x1).1 (i + 1)|)) →
       ¬(∃ i, i < n - 1 ∧ (al < |(fit_cubic_spline n dt x x1).2 i| ∨
          al < |(fit_cubic_spline n dt x x1).2 (i + 1)|)) →
      ∀ i, (fit_spline_and_adjust_times n dt x x1 vl al jl tf).dt i =
        if i < n - 1 ∧
            jl < |((fit_cubic_spline n dt x x1).2 (i + 1) -
              (fit_cubic_spline n dt x x1).2 i) / dt i| then dt i * tf
        else dt i) := by
  refine ⟨fun hv i => ?_, fun hnv ha i => ?_, fun hnv hna i => ?_⟩
  · simp only [fit_spline_and_adjust_times]
    rw [if_pos ((anyRange_iff (n - 1) _).mpr hv)]
  · simp only [fit_spline_and_adjust_times]
    rw [if_neg (fun hc => hnv ((anyRange_iff (n - 1) _).mp hc))]
    rw [if_pos ((anyRange_iff (n - 1) _).mpr ha)]
  · simp only [fit_spline_and_adjust_times]
    rw [if_neg (fun hc => hnv ((anyRange_iff (n - 1) _).mp hc))]
    rw [if_neg (fun hc => hna ((anyRange_iff (n - 1) _).mp hc))]
    by_cases hj : ∃ i, i < n - 1 ∧
        jl < |((fit_cubic_spline n dt x x1).2 (i + 1) -
          (fit_cubic_spline n dt x x1).2 i) / dt i|
    · rw [if_pos ((anyRange_iff (n - 1) _).mpr hj)]
    · rw [if_neg (fun hc => hj ((anyRange_iff (n - 1) _).mp hc))]
      rw [if_neg (fun hc => hj ⟨i, hc⟩)]

/-- Witness for C2 amended at the counterexample input: the velocity
stage fires (segment 0 violates), so segment 2's duration follows the
velocity-only pointwise rule. -/
theorem C2_amended_witness :
    (fit_spline_and_adjust_times 4 dtOne xStep6 zeroQ 2 2 9 2).dt 2 =
      if 2 < 4 - 1 ∧ (2 < |(fit_cubic_spline 4 dtOne xStep6 zeroQ).1 2| ∨
          2 < |(fit_cubic_spline 4 dtOne xStep6 zeroQ).1 (2 + 1)|) then
        dtOne 2 * 2
      else dtOne 2 :=
  (C2_amended 4 dtOne xStep6 zeroQ 2 2 9 2).1
    ⟨0, by norm_num, Or.inr (by with_unfolding_all decide)⟩ 2

/-! ## Orchestrator control-flow claims -/

/-- C10: an empty trajectory makes computeTimeStamps return success
immediately (source lines 112-113), before any other check and with no
computation or mutation — even though the spec states N at least 4 as a
precondition. -/
theorem C10_empty_success (isp : IterativeSplineParameterization)
    (uw : UnwindModel) (traj : RobotTrajectory) (vsf asf : ℚ) (fuel : ℕ)
    (h : traj.waypoints = []) :
    computeTimeStamps isp uw traj vsf asf fuel = some (true, traj) := by
  unfold computeTimeStamps
  rw [if_pos (by simp [h])]

/-- Witness for C10 at a concrete empty trajectory. -/
theorem C10_witness :
    computeTimeStamps (IterativeSplineParameterization.make 1 false) unwindId
      trajEmpty 1 1 0 = some (true, trajEmpty) :=
  C10_empty_success (IterativeSplineParameterization.make 1 false) unwindId
    trajEmpty 1 1 0 rfl

/-- C1 counterexample: with constructor parameter
max_time_change_per_it = 1.0 the stored stretch factor is 2.0 (line 100),
so the call on a non-empty valid trajectory does not fail at all — it
succeeds.  This refutes the claim that parameter 1.0 makes
computeTimeStamps fail. -/
theorem C1_counterexample :
    (computeTimeStamps (IterativeSplineParameterization.make 1 false) unwindId
      trajZero4 1 1 2).map Prod.fst = some true := by
  with_unfolding_all rfl

/-- C1 amended: the constructor stores 1.0 + parameter, so the tfactor
validation (stored factor at most 1, line 234) fires exactly when the
constructor parameter is at most 0.0; and even then the failure is not
mutation-free: it is reported only after unwinding and optional point
insertion, returning the unwound, possibly padded trajectory. -/
theorem C1_amended (p : ℚ) (ap : Bool) (uw : UnwindModel)
    (traj : RobotTrajectory) (vsf asf : ℚ) (fuel : ℕ) (g : JointModelGroup)
    (hg : traj.group = some g) (hne : traj.waypoints ≠ []) (hp : p ≤ 0) :
    (IterativeSplineParameterization.make p ap).max_time_change_per_it_ =
      1 + p
    ∧ computeTimeStamps (IterativeSplineParameterization.make p ap) uw traj
        vsf asf fuel =
      some (false,
        (insertExtraPoints ap g traj.waypoints.length (uw traj)).1) := by
  refine ⟨rfl, ?_⟩
  have hemp : ¬(traj.waypoints.isEmpty = true) := by
    simp [List.isEmpty_iff, hne]
  have h1 : (1 : ℚ) + p ≤ 1 := by linarith
  unfold computeTimeStamps
  rw [if_neg hemp]
  simp only [hg, IterativeSplineParameterization.make]
  rw [if_pos h1]

/-- Witness for C1 amended: constructor parameter 0 (stored factor 1.0)
on the zero 4-point trajectory fails, returning the unchanged
trajectory (add_points is off and the identity unwind model is used). -/
theorem C1_amended_witness :
    (IterativeSplineParameterization.make 0 false).max_time_change_per_it_ =
      1 + 0
    ∧ computeTimeStamps (IterativeSplineParameterization.make 0 false)
        unwindId trajZero4 1 1 2 =
      some (false,
        (insertExtraPoints false gFree trajZero4.waypoints.length
          (unwindId trajZero4)).1) :=
  C1_amended 0 false unwindId trajZero4 1 1 2 gFree rfl
    (by simp [trajZero4]) (le_refl 0)

/-- C3 amended: on failure no commit has happened — the returned
trajectory is exactly the input for the missing-group failure, and the
unwound input with the optional two inserted waypoints for every
validation failure (tfactor, waypoint count, infeasible boundary).  The
claim's stronger statement, that no mutation at all precedes a failure,
is false: unwinding and point insertion precede validation. -/
theorem C3_amended (isp : IterativeSplineParameterization) (uw : UnwindModel)
    (traj : RobotTrajectory) (vsf asf : ℚ) (fuel : ℕ) (t' : RobotTrajectory)
    (h : computeTimeStamps isp uw traj vsf asf fuel = some (false, t')) :
    (traj.group = none ∧ t' = traj) ∨
    ∃ g, traj.group = some g ∧
      t' = (insertExtraPoints isp.add_points_ g traj.waypoints.length
        (uw traj)).1 := by
  unfold computeTimeStamps at h
  by_cases hemp : traj.waypoints.isEmpty = true
  · rw [if_pos hemp] at h
    simp at h
  · rw [if_neg hemp] at h
    cases hg : traj.group with
    | none =>
      simp only [hg] at h
      simp only [Option.some.injEq, Prod.mk.injEq] at h
      exact Or.inl ⟨rfl, h.2.symm⟩
    | some g =>
      simp only [hg] at h
      refine Or.inr ⟨g, rfl, ?_⟩
      split_ifs at h with h1 h2 h3
      · simp only [Option.some.injEq, Prod.mk.injEq] at h
        exact h.2.symm
      · simp only [Option.some.injEq, Prod.mk.injEq] at h
        exact h.2.symm
      · simp only [Option.some.injEq, Prod.mk.injEq] at h
        exact h.2.symm
      · exfalso
        rw [Option.bind_eq_some] at h
        obtain ⟨p, hp, h2⟩ := h
        rw [Option.map_eq_some'] at h2
        obtain ⟨q, hq, h3⟩ := h2
        simp at h3

/-- C3 counterexample: a failing call that has mutated the external
trajectory: with add_points on and two input waypoints whose initial
velocity 5 exceeds the declared bound 1, the call fails at the boundary
check, but only after two waypoints were inserted — the returned
trajectory has 4 waypoints while the input had 2. -/
theorem C3_counterexample :
    (computeTimeStamps (IterativeSplineParameterization.make (1 / 20) true)
      unwindId trajBadVel 1 1 2).map
        (fun p => (p.1, p.2.waypoints.length)) = some (false, 4)
    ∧ trajBadVel.waypoints.length = 2 :=
  ⟨by with_unfolding_all rfl, rfl⟩

/-- Witness for C3 amended at a concrete failing input (missing group):
the returned trajectory is the unmutated input. -/
theorem C3_witness :
    (trajNoGroup.group = none ∧ trajNoGroup = trajNoGroup) ∨
    ∃ g, trajNoGroup.group = some g ∧
      trajNoGroup = (insertExtraPoints
        (IterativeSplineParameterization.make 1 false).add_points_ g
        trajNoGroup.waypoints.length (unwindId trajNoGroup)).1 :=
  C3_amended (IterativeSplineParameterization.make 1 false) unwindId
    trajNoGroup 1 1 0 trajNoGroup (by with_unfolding_all rfl)

/-- C4 counterexample: a call with exactly 3 waypoints and add_points on
does not fail at all: the two inserted points raise the count to 5, the
count check passes, and the call succeeds (and has mutated the
trajectory).  This refutes the claim that N = 3 fails immediately with
no mutation regardless of the add_points setting. -/
theorem C4_counterexample :
    trajZero3.waypoints.length = 3 ∧
    (computeTimeStamps (IterativeSplineParameterization.make (1 / 20) true)
      unwindId trajZero3 1 1 2).map
        (fun p => (p.1, p.2.waypoints.length)) = some (true, 5) :=
  ⟨rfl, by with_unfolding_all rfl⟩

/-- C4 amended: with add_points off, a 3-waypoint trajectory (group
present) always fails — at the tfactor check or at the count check —
and the returned trajectory is the unwound input (no insertion, no
commit). -/
theorem C4_amended (tfp : ℚ) (uw : UnwindModel) (traj : RobotTrajectory)
    (vsf asf : ℚ) (fuel : ℕ) (g : JointModelGroup)
    (hg : traj.group = some g) (h3 : traj.waypoints.length = 3) :
    computeTimeStamps ⟨tfp, false⟩ uw traj vsf asf fuel =
      some (false, uw traj) := by
  have hemp : ¬(traj.waypoints.isEmpty = true) := by
    simp only [List.isEmpty_iff]
    intro hh
    rw [hh] at h3
    simp at h3
  have hins : insertExtraPoints false g traj.waypoints.length (uw traj) =
      (uw traj, traj.waypoints.length) := rfl
  unfold computeTimeStamps
  rw [if_neg hemp]
  simp only [hg]
  rw [hins]
  by_cases h1 : tfp ≤ 1
  · rw [if_pos h1]
  · rw [if_neg h1, if_pos (by rw [h3]; norm_num)]

/-- Witness for C4 amended: the zero 3-point trajectory with add_points
off fails and comes back unchanged under the identity unwind model. -/
theorem C4_witness :
    computeTimeStamps ⟨2, false⟩ unwindId trajZero3 1 1 0 =
      some (false, unwindId trajZero3) :=
  C4_amended 2 unwindId trajZero3 1 1 0 gFree rfl rfl

end TrajectoryProcessing
